import Mathlib

/-!
Shallow embedding of the `raise` vector library (src/src/vector.c,
src/include/vector.h): a type-erased dynamic array over raw byte buffers,
with a pluggable growth policy, mutability freezing, and bounded iterators.

Modelling conventions:
* `size_t` values are `Nat`; wherever the C code can wrap (subtraction,
  shifts, multiplication, increment), the embedding computes modulo
  `W = 2^64` explicitly.
* A byte buffer is a `List Nat`; `NULL` data is `none`.  A vector handle
  is non-null (every claim is about an existing vector); the C `NULL`
  data-pointer state is `data = none`.
* `malloc` cannot be modelled deterministically, so each operation that
  allocates takes an extra `allocOk : Bool` oracle saying whether the
  allocation succeeds; fresh memory is modelled as zero bytes (the only
  place contents of uninitialised memory would matter is beyond the
  copied prefix, which no confirmed theorem depends on).
* Out-of-bounds `memcpy`/`memset` is undefined behaviour in C; the model
  clips the transfer at the end of the destination buffer.  Theorems
  about such executions only use the fields (`size`, `capacity`, status)
  that the C code sets independently of the UB write.
* The out-parameter `p` of `vector_get`/`vector_pop`/`vector_get_next` is
  modelled as the `Option (List Nat)` component of the result (the C code
  checks `p != NULL`; the model's caller always passes a valid buffer).
* The process-wide policy registry is modelled at its default state:
  `__vec_growby = __vector_default_growby`, allocation via the `allocOk`
  oracle.
-/

/-- `size_t` modulus: the embedding computes modulo `2^64` wherever the C
code's unsigned arithmetic can wrap. -/
def W : Nat := 2 ^ 64

/-- Error codes from `enum vec_error` in vector.h. -/
def VEC_SUCCESS : Int := 0

/-- Index out of range. -/
def VEC_ERANGE : Int := -1

/-- Invalid vector. -/
def VEC_EINVAL : Int := -2

/-- Vector has reached maximum growth allowed. -/
def VEC_EMAXED : Int := -3

/-- Vector is immutable. -/
def VEC_EIMMUT : Int := -4

/-- Memory allocation failed. -/
def VEC_ENOMEM : Int := -5

/-- Exhausted iterator. -/
def VEC_EITEHX : Int := -6

/-- `VEC_NEXTSIZE` from `enum vec_consts`: passed to `__vector_realloc`
to mean "grow from the current capacity". -/
def VEC_NEXTSIZE : Nat := 0

/-- `struct vector`: `size` and `capacity` are counts, `objsz` the byte
width of one object, `data` the backing byte buffer (`none` = NULL). -/
structure vector where
  size : Nat
  capacity : Nat
  objsz : Nat
  mutable : Bool
  data : Option (List Nat)
deriving DecidableEq, Repr

/-- `struct vector_iter`: a window `[begin, iend)` over a vector with a
cursor.  The C field `end` is a Lean keyword, renamed `iend`. -/
structure vector_iter where
  v : vector
  begin : Nat
  iend : Nat
  current : Nat
deriving DecidableEq, Repr

/-- `memcpy`/`memset` into an existing buffer: overwrite `dst` from byte
offset `off` with the bytes of `src`, clipping at the end of `dst` (a
genuine out-of-bounds write is UB in C; the model clips). -/
def memWrite (dst : List Nat) (off : Nat) (src : List Nat) : List Nat :=
  dst.take off ++ src.take (dst.length - off) ++ dst.drop (off + src.length)

/-- Read `n` bytes of `buf` starting at byte offset `off`, clipped at the
end of the buffer (an out-of-bounds read is UB in C; the model clips). -/
def memRead (buf : List Nat) (off n : Nat) : List Nat :=
  (buf.drop off).take n

/-- `__vector_idx_is_valid`: non-null handle and `idx < v->capacity`
(the `idx >= 0` conjunct is vacuous for unsigned `idx`). -/
def __vector_idx_is_valid (v : vector) (idx : Nat) : Bool :=
  idx < v.capacity

/-- `__vector_is_valid`: the handle and its data buffer are non-null. -/
def __vector_is_valid (v : vector) : Bool :=
  v.data.isSome

/-- `__vector_needs_realloc_for`: `idx > v->capacity`. -/
def __vector_needs_realloc_for (v : vector) (idx : Nat) : Bool :=
  idx > v.capacity

/-- The `while (y > sz) y <<= 1;` loop of `__vector_default_growby`.  In C
the loop always terminates because `y` wraps modulo `2^64` and `0 > sz`
is false, after at most 64 shifts from `y = 1`; the fuel argument (65 at
the call site) covers that bound exactly. -/
def growbyLoop (fuel : Nat) (y sz : Nat) : Nat :=
  match fuel with
  | 0 => y
  | fuel + 1 => if y > sz then growbyLoop fuel ((y <<< 1) % W) sz else y

/-- `__vector_default_growby`: `0 ↦ 1`; a power of two is doubled via
`sz << 1` (wrapping); otherwise `y = 1; while (y > sz) y <<= 1; return y`. -/
def __vector_default_growby (sz : Nat) : Nat :=
  if sz == 0 then 1
  else if Nat.land sz (sz - 1) == 0 then (sz <<< 1) % W
  else growbyLoop 65 1 sz

/-- `__vector_realloc`: `cursz = atleast ? atleast : v->capacity`;
`newsz = __vec_growby(cursz) * v->objsz` (wrapping); fail `VEC_EMAXED`
when `newsz <= v->capacity`; otherwise allocate `newsz` bytes (oracle
`allocOk`, `VEC_ENOMEM` on failure), `memcpy(newp, v->data, v->size)`
(`v->size` BYTES), free the old buffer, install `newp` and
`v->capacity = newsz`. -/
def __vector_realloc (v : vector) (atleast : Nat) (allocOk : Bool) :
    Int × vector :=
  let cursz := if atleast ≠ 0 then atleast else v.capacity
  let newsz := (__vector_default_growby cursz * v.objsz) % W
  if newsz ≤ v.capacity then (VEC_EMAXED, v)
  else if !allocOk then (VEC_ENOMEM, v)
  else
    let newp := memWrite (List.replicate newsz 0) 0
      ((v.data.getD []).take v.size)
    (VEC_SUCCESS, { v with data := some newp, capacity := newsz })

/-- `vector_new(nobj, objsz)` on the successful-allocation path: `size = 0`,
`capacity = nobj`, `mutable = true`; for `nobj > 0` a zeroed buffer of
`nobj * objsz` bytes, otherwise a NULL data pointer. -/
def vector_new (nobj objsz : Nat) : vector :=
  { size := 0
    capacity := nobj
    objsz := objsz
    mutable := true
    data := if nobj > 0 then some (List.replicate ((nobj * objsz) % W) 0)
            else none }

/-- `vector_size`: 0 for a NULL handle (model handles are non-null). -/
def vector_size (v : vector) : Nat :=
  v.size

/-- `vector_capacity`: 0 for a NULL handle (model handles are non-null). -/
def vector_capacity (v : vector) : Nat :=
  v.capacity

/-- `vector_is_empty`. -/
def vector_is_empty (v : vector) : Bool :=
  v.size == 0

/-- `vector_is_mutable`: `true` as a sentinel for invalid vectors. -/
def vector_is_mutable (v : vector) : Bool :=
  if !(__vector_is_valid v) then true else v.mutable

/-- `vector_reserve`: requires non-null handle and `size > 0`
(`VEC_EINVAL`), then mutability (`VEC_EIMMUT`), then delegates to
`__vector_realloc(v, size)`.  Note: it does NOT require a non-null data
buffer. -/
def vector_reserve (v : vector) (size : Nat) (allocOk : Bool) :
    Int × vector :=
  if !(size > 0) then (VEC_EINVAL, v)
  else if !v.mutable then (VEC_EIMMUT, v)
  else __vector_realloc v size allocOk

/-- `vector_fit(v, immutable)`: requires a valid vector; when
`size < capacity` allocate `v->size` BYTES (oracle `allocOk`,
`VEC_ENOMEM` on failure), `memcpy(fitp, v->data, v->size)`, set
`capacity = size` and install the new buffer; in every successful path
set `mutable = !immutable`. -/
def vector_fit (v : vector) (immutable : Bool) (allocOk : Bool) :
    Int × vector :=
  if !(__vector_is_valid v) then (VEC_EINVAL, v)
  else if v.size < v.capacity then
    if !allocOk then (VEC_ENOMEM, v)
    else
      let fitp := memWrite (List.replicate v.size 0) 0
        ((v.data.getD []).take v.size)
      (VEC_SUCCESS,
        { v with capacity := v.size, data := some fitp,
                 mutable := !immutable })
  else (VEC_SUCCESS, { v with mutable := !immutable })

/-- `vector_make_immutable`: `vector_fit(v, true)`. -/
def vector_make_immutable (v : vector) (allocOk : Bool) : Int × vector :=
  vector_fit v true allocOk

/-- `vector_get`: requires a valid vector and non-null out-pointer
(`VEC_EINVAL`), `idx < capacity` (`VEC_ERANGE`); copies `objsz` bytes
from slot `idx` into the out-parameter (returned as the second
component). -/
def vector_get (v : vector) (idx : Nat) : Int × Option (List Nat) :=
  if !(__vector_is_valid v) then (VEC_EINVAL, none)
  else if !(__vector_idx_is_valid v idx) then (VEC_ERANGE, none)
  else (VEC_SUCCESS, some (memRead (v.data.getD []) ((idx * v.objsz) % W) v.objsz))

/-- `vector_insert`: requires a valid vector and non-null in-pointer
(`VEC_EINVAL`); when `idx > capacity` first calls
`__vector_realloc(v, VEC_NEXTSIZE)` and propagates its failure; copies
`objsz` bytes from `p` into slot `idx`; when `size <= idx` advances
`size` to `idx + 1`.  It performs NO mutability check. -/
def vector_insert (v : vector) (idx : Nat) (p : List Nat)
    (allocOk : Bool) : Int × vector :=
  if !(__vector_is_valid v) then (VEC_EINVAL, v)
  else
    let step :=
      if __vector_needs_realloc_for v idx then
        __vector_realloc v VEC_NEXTSIZE allocOk
      else (VEC_SUCCESS, v)
    if step.1 ≠ VEC_SUCCESS then step
    else
      let v1 := step.2
      let buf := memWrite (v1.data.getD []) ((idx * v1.objsz) % W)
        (p.take v1.objsz)
      let v2 := { v1 with data := some buf }
      if v2.size ≤ idx then (VEC_SUCCESS, { v2 with size := (idx + 1) % W })
      else (VEC_SUCCESS, v2)

/-- `vector_erase`: requires a valid vector (`VEC_EINVAL`), mutability
(`VEC_EIMMUT`), `idx < capacity` (`VEC_ERANGE`); zero-fills slot `idx`;
when `idx == size - 1` (wrapping) decrements `size`. -/
def vector_erase (v : vector) (idx : Nat) : Int × vector :=
  if !(__vector_is_valid v) then (VEC_EINVAL, v)
  else if !v.mutable then (VEC_EIMMUT, v)
  else if !(__vector_idx_is_valid v idx) then (VEC_ERANGE, v)
  else
    let buf := memWrite (v.data.getD []) ((idx * v.objsz) % W)
      (List.replicate v.objsz 0)
    let v1 := { v with data := some buf }
    if idx == (v1.size + (W - 1)) % W then
      (VEC_SUCCESS, { v1 with size := (v1.size + (W - 1)) % W })
    else (VEC_SUCCESS, v1)

/-- `vector_push`: `vector_insert(v, v->size, p)`. -/
def vector_push (v : vector) (p : List Nat) (allocOk : Bool) :
    Int × vector :=
  vector_insert v v.size p allocOk

/-- `vector_pop`: requires mutability (`VEC_EIMMUT`); then
`vector_get(v, v->size - 1, p)` (the subtraction wraps when `size = 0`),
propagating failure; then `vector_erase(v, v->size - 1)`.  Result:
(status, vector afterwards, popped bytes). -/
def vector_pop (v : vector) : Int × vector × Option (List Nat) :=
  if !v.mutable then (VEC_EIMMUT, v, none)
  else
    let res := vector_get v ((v.size + (W - 1)) % W)
    if res.1 ≠ VEC_SUCCESS then (res.1, v, res.2)
    else
      let er := vector_erase v ((v.size + (W - 1)) % W)
      (er.1, er.2, res.2)

/-- `vector_get_iterator`: requires a valid vector, `begin` and `end`
both valid indices in the `__vector_idx_is_valid` sense (strictly below
capacity), and `begin <= end`; allocation may also fail (`allocOk`).
Returns `none` for NULL. -/
def vector_get_iterator (v : vector) (b e : Nat) (allocOk : Bool) :
    Option vector_iter :=
  if !(__vector_is_valid v) then none
  else if !(__vector_idx_is_valid v b && __vector_idx_is_valid v e) then none
  else if !(b ≤ e) then none
  else if !allocOk then none
  else some { v := v, begin := b, iend := e, current := b }

/-- `vector_has_next`: `current >= begin && current < end`. -/
def vector_has_next (it : vector_iter) : Bool :=
  it.current ≥ it.begin && it.current < it.iend

/-- `vector_get_next`: requires a non-exhausted iterator (`VEC_EITEHX`);
increments `current` (wrapping) then reads the pre-increment index via
`vector_get`.  Result: (status, iterator afterwards, read bytes). -/
def vector_get_next (it : vector_iter) : Int × vector_iter × Option (List Nat) :=
  if !(vector_has_next it) then (VEC_EITEHX, it, none)
  else
    let it1 := { it with current := (it.current + 1) % W }
    let r := vector_get it1.v ((it1.current + (W - 1)) % W)
    (r.1, it1, r.2)

/-- `vector_reset_iterator`: `current = begin`. -/
def vector_reset_iterator (it : vector_iter) : vector_iter :=
  { it with current := it.begin }

/-- Small helper: case analysis on the three outcomes of
`__vector_realloc` — `maxed` and `out-of-memory` leave the vector
untouched, otherwise the status is success. -/
theorem realloc_cases (v : vector) (al : Nat) (a : Bool) :
    __vector_realloc v al a = (VEC_EMAXED, v) ∨
    __vector_realloc v al a = (VEC_ENOMEM, v) ∨
    (__vector_realloc v al a).1 = VEC_SUCCESS := by
  unfold __vector_realloc
  dsimp only
  split_ifs <;> simp

/-- Small helper: a failed `__vector_realloc` leaves the vector in its
pre-call state. -/
theorem realloc_fail_frames (v : vector) (al : Nat) (a : Bool)
    (h : (__vector_realloc v al a).1 ≠ VEC_SUCCESS) :
    (__vector_realloc v al a).2 = v := by
  rcases realloc_cases v al a with h1 | h1 | h1
  · rw [h1]
  · rw [h1]
  · exact absurd h1 h

/-- C1: refuted on the code.  `vector_reserve` can report success while
leaving the capacity below `at_least` (the growth policy returns 1 for
non-powers of two), and on success it installs the BYTE count
`growth_policy(at_least) * element_size` — not the element count — as
the new capacity: reserving 2 four-byte slots yields capacity 16, not
`growth_policy(2) = 4`. -/
theorem reserve_installs_bytes_not_elements :
    (vector_reserve (vector_new 0 1) 10 true).1 = VEC_SUCCESS ∧
    (vector_reserve (vector_new 0 1) 10 true).2.capacity = 1 ∧
    ¬(10 ≤ (vector_reserve (vector_new 0 1) 10 true).2.capacity) ∧
    (vector_reserve (vector_new 1 4) 2 true).1 = VEC_SUCCESS ∧
    __vector_default_growby 2 = 4 ∧
    (vector_reserve (vector_new 1 4) 2 true).2.capacity = 16 := by
  decide

/-- C2: refuted on the code.  The default growth policy agrees with the
claim at 0, 1 and 16, but for the non-power-of-two input 10 the loop
`y = 1; while (y > sz) y <<= 1;` never executes, so the function
returns 1 instead of the documented 16. -/
theorem default_growby_returns_one_for_non_powers :
    __vector_default_growby 0 = 1 ∧
    __vector_default_growby 1 = 2 ∧
    __vector_default_growby 16 = 32 ∧
    __vector_default_growby 10 = 1 := by
  decide

/-- C3: refuted on the code.  Pushing onto a vector whose size equals its
capacity does not grow the buffer (`__vector_needs_realloc_for` tests
`idx > capacity`, and push passes `idx = size = capacity`); the push
reports success and advances `size` to `capacity + 1`, breaking
`size ≤ capacity`. -/
theorem push_at_full_capacity_breaks_invariant :
    (vector_push (vector_push (vector_new 1 1) [7] true).2 [8] true).1 =
      VEC_SUCCESS ∧
    (vector_push (vector_push (vector_new 1 1) [7] true).2 [8] true).2.size = 2 ∧
    (vector_push (vector_push (vector_new 1 1) [7] true).2 [8] true).2.capacity
      = 1 := by
  decide

/-- C4: refuted on the code.  Inserting at index 10 into a capacity-1
vector triggers one growth, but `__vector_realloc(v, VEC_NEXTSIZE)`
grows only from the current capacity (to 2), which does not exceed the
index; the element is written out of bounds and a subsequent `get` at
index 10 fails with `VEC_ERANGE` instead of returning the bytes. -/
theorem insert_growth_does_not_cover_index :
    (vector_insert (vector_new 1 1) 10 [5] true).1 = VEC_SUCCESS ∧
    (vector_insert (vector_new 1 1) 10 [5] true).2.capacity = 2 ∧
    ¬(10 < (vector_insert (vector_new 1 1) 10 [5] true).2.capacity) ∧
    (vector_get (vector_insert (vector_new 1 1) 10 [5] true).2 10).1 =
      VEC_ERANGE := by
  decide

/-- C5: refuted on the code.  With `element_size = 2`, a vector holding
one element with bytes `[1, 2]` loses byte 2 across
`reserve(v, 4); fit(v, false)`: both `__vector_realloc` and `vector_fit`
copy `v->size` BYTES instead of `v->size * element_size`, so the final
buffer is `[1]` and the element is not preserved. -/
theorem reserve_fit_roundtrip_loses_bytes :
    (vector_get (vector_insert (vector_new 2 2) 0 [1, 2] true).2 0).2 =
      some [1, 2] ∧
    (vector_fit (vector_reserve
        (vector_insert (vector_new 2 2) 0 [1, 2] true).2 4 true).2
      false true).1 = VEC_SUCCESS ∧
    (vector_fit (vector_reserve
        (vector_insert (vector_new 2 2) 0 [1, 2] true).2 4 true).2
      false true).2.data = some [1] ∧
    (vector_get (vector_fit (vector_reserve
        (vector_insert (vector_new 2 2) 0 [1, 2] true).2 4 true).2
      false true).2 0).2 ≠ some [1, 2] := by
  decide

/-- C6: refuted on the code.  After a successful `vector_make_immutable`,
`vector_erase` and `vector_reserve` do fail with `VEC_EIMMUT`, and
`vector_get` still succeeds — but `vector_insert` (and therefore
`vector_push`) performs no mutability check: it reports `VEC_SUCCESS`
and overwrites the frozen vector's bytes. -/
theorem insert_and_push_ignore_immutability :
    (vector_make_immutable (vector_insert (vector_new 2 1) 0 [7] true).2
      true).1 = VEC_SUCCESS ∧
    (vector_make_immutable (vector_insert (vector_new 2 1) 0 [7] true).2
      true).2.mutable = false ∧
    (vector_insert (vector_make_immutable
        (vector_insert (vector_new 2 1) 0 [7] true).2 true).2
      0 [9] true).1 = VEC_SUCCESS ∧
    (vector_insert (vector_make_immutable
        (vector_insert (vector_new 2 1) 0 [7] true).2 true).2
      0 [9] true).2.data = some [9] ∧
    (vector_push (vector_make_immutable
        (vector_insert (vector_new 2 1) 0 [7] true).2 true).2
      [9] true).1 = VEC_SUCCESS ∧
    (vector_erase (vector_make_immutable
        (vector_insert (vector_new 2 1) 0 [7] true).2 true).2 0).1 =
      VEC_EIMMUT ∧
    (vector_reserve (vector_make_immutable
        (vector_insert (vector_new 2 1) 0 [7] true).2 true).2 5 true).1 =
      VEC_EIMMUT ∧
    (vector_get (vector_make_immutable
        (vector_insert (vector_new 2 1) 0 [7] true).2 true).2 0).1 =
      VEC_SUCCESS := by
  decide

/-- Small helper: a failed `vector_reserve` leaves the vector in its
pre-call state. -/
theorem reserve_fail_frames (v : vector) (sz : Nat) (a : Bool)
    (h : (vector_reserve v sz a).1 ≠ VEC_SUCCESS) :
    (vector_reserve v sz a).2 = v := by
  unfold vector_reserve at *
  split_ifs at * with h1 h2
  · rfl
  · rfl
  · exact realloc_fail_frames v sz a h

/-- Small helper: a failed `vector_insert` leaves the vector in its
pre-call state. -/
theorem insert_fail_frames (v : vector) (idx : Nat) (p : List Nat)
    (a : Bool) (h : (vector_insert v idx p a).1 ≠ VEC_SUCCESS) :
    (vector_insert v idx p a).2 = v := by
  unfold vector_insert at *
  dsimp only at *
  split_ifs at * with h1 h2 h3
  all_goals first
    | rfl
    | exact absurd rfl h
    | exact realloc_fail_frames v VEC_NEXTSIZE a h

/-- Small helper: a failed `vector_push` leaves the vector in its
pre-call state. -/
theorem push_fail_frames (v : vector) (p : List Nat) (a : Bool)
    (h : (vector_push v p a).1 ≠ VEC_SUCCESS) :
    (vector_push v p a).2 = v :=
  insert_fail_frames v v.size p a h

/-- Small helper: a failed `vector_fit` leaves the vector in its
pre-call state. -/
theorem fit_fail_frames (v : vector) (frz : Bool) (a : Bool)
    (h : (vector_fit v frz a).1 ≠ VEC_SUCCESS) :
    (vector_fit v frz a).2 = v := by
  unfold vector_fit at *
  split_ifs at * with h1 h2 h3
  · rfl
  · rfl
  · exact absurd rfl h
  · exact absurd rfl h

/-- C7: whenever a fallible mutating operation — `vector_reserve`,
`vector_insert`, `vector_push`, `vector_fit` — returns a non-success
status, the vector afterwards equals the vector before the call in every
observable component (size, capacity, element bytes, mutability, buffer
validity); in particular a failed reallocation never releases or
replaces the existing buffer. -/
theorem failed_mutations_are_atomic
    (v1 v2 v3 v4 : vector) (sz idx : Nat) (p q : List Nat) (frz : Bool)
    (a1 a2 a3 a4 : Bool) :
    ((vector_reserve v1 sz a1).1 ≠ VEC_SUCCESS →
      (vector_reserve v1 sz a1).2 = v1) ∧
    ((vector_insert v2 idx p a2).1 ≠ VEC_SUCCESS →
      (vector_insert v2 idx p a2).2 = v2) ∧
    ((vector_push v3 q a3).1 ≠ VEC_SUCCESS →
      (vector_push v3 q a3).2 = v3) ∧
    ((vector_fit v4 frz a4).1 ≠ VEC_SUCCESS →
      (vector_fit v4 frz a4).2 = v4) :=
  ⟨reserve_fail_frames v1 sz a1, insert_fail_frames v2 idx p a2,
   push_fail_frames v3 q a3, fit_fail_frames v4 frz a4⟩

/-- Witness for C7: concrete failing calls — `reserve` failing `maxed`,
`insert` and `push` failing `out-of-memory` during growth, `fit` failing
`out-of-memory` during shrink — all leave their vectors untouched. -/
theorem failed_mutations_are_atomic_witness :
    (vector_reserve ⟨1, 2, 1, true, some [9, 9]⟩ 1 false).1 ≠ VEC_SUCCESS ∧
    (vector_reserve ⟨1, 2, 1, true, some [9, 9]⟩ 1 false).2 =
      ⟨1, 2, 1, true, some [9, 9]⟩ ∧
    (vector_insert ⟨1, 2, 1, true, some [9, 9]⟩ 10 [3] false).2 =
      ⟨1, 2, 1, true, some [9, 9]⟩ ∧
    (vector_push ⟨3, 2, 1, true, some [9, 9]⟩ [3] false).2 =
      ⟨3, 2, 1, true, some [9, 9]⟩ ∧
    (vector_fit ⟨1, 2, 1, true, some [9, 9]⟩ false false).2 =
      ⟨1, 2, 1, true, some [9, 9]⟩ := by
  obtain ⟨hr, hi, hp, hf⟩ := failed_mutations_are_atomic
    ⟨1, 2, 1, true, some [9, 9]⟩ ⟨1, 2, 1, true, some [9, 9]⟩
    ⟨3, 2, 1, true, some [9, 9]⟩ ⟨1, 2, 1, true, some [9, 9]⟩
    1 10 [3] [3] false false false false false
  exact ⟨by decide, hr (by decide), hi (by decide), hp (by decide),
    hf (by decide)⟩

/-- C9: on a valid, mutable vector with `size = 0`, `vector_pop` fails
with `VEC_ERANGE` and leaves the vector unchanged: the C expression
`size - 1` wraps to `2^64 - 1`, which the capacity bound of `vector_get`
rejects before anything is written or erased. -/
theorem pop_on_empty_out_of_range (v : vector)
    (hv : __vector_is_valid v = true) (hm : v.mutable = true)
    (hs : v.size = 0) (hc : v.capacity < W) :
    vector_pop v = (VEC_ERANGE, v, none) := by
  have hidx : __vector_idx_is_valid v ((v.size + (W - 1)) % W) = false := by
    have h1 : (v.size + (W - 1)) % W = W - 1 := by
      rw [hs, Nat.zero_add]
      exact Nat.mod_eq_of_lt (by omega)
    rw [h1]
    simp only [__vector_idx_is_valid, decide_eq_false_iff_not, not_lt]
    omega
  have hne : VEC_ERANGE ≠ VEC_SUCCESS := by decide
  simp [vector_pop, hm, vector_get, hv, hidx, hne]

/-- Witness for C9: popping from an empty three-slot vector fails
`out-of-range` and changes nothing. -/
theorem pop_on_empty_out_of_range_witness :
    vector_pop ⟨0, 3, 1, true, some [0, 0, 0]⟩ =
      (VEC_ERANGE, ⟨0, 3, 1, true, some [0, 0, 0]⟩, none) :=
  pop_on_empty_out_of_range ⟨0, 3, 1, true, some [0, 0, 0]⟩
    (by decide) (by decide) (by decide) (by decide)

/-- Small helper: a successful `__vector_realloc` strictly grows the
capacity and installs a non-null buffer. -/
theorem realloc_success_grows (v : vector) (al : Nat) (a : Bool)
    (h : (__vector_realloc v al a).1 = VEC_SUCCESS) :
    v.capacity < (__vector_realloc v al a).2.capacity ∧
    __vector_is_valid (__vector_realloc v al a).2 = true := by
  have hne1 : VEC_EMAXED ≠ VEC_SUCCESS := by decide
  have hne2 : VEC_ENOMEM ≠ VEC_SUCCESS := by decide
  unfold __vector_realloc at *
  dsimp only at *
  split_ifs at * with h1 h2 h3
  all_goals first
    | exact absurd h hne1
    | exact absurd h hne2
    | (refine ⟨?_, by simp [__vector_is_valid]⟩; dsimp only; omega)

/-- Small helper: `vector_insert` succeeds whenever the vector is valid
and no reallocation is needed for the index. -/
theorem insert_no_growth_succeeds (v : vector) (idx : Nat) (p : List Nat)
    (a : Bool) (hv : __vector_is_valid v = true)
    (hg : __vector_needs_realloc_for v idx = false) :
    (vector_insert v idx p a).1 = VEC_SUCCESS := by
  unfold vector_insert
  dsimp only
  rw [hv, hg]
  simp only [Bool.not_true, Bool.false_eq_true, if_false]
  split_ifs with h1 h2
  · exact absurd rfl h1
  · rfl
  · rfl

/-- C10: a vector created with `initial_count = 0` has a NULL buffer and
is structurally invalid — `get`, `insert`, `push` and `fit` on it fail
with `VEC_EINVAL` and iterator creation returns NULL — while
`vector_reserve` (whose precondition checks only the handle and
`size > 0`, not the buffer) never rejects it as invalid or immutable,
and after a successful reserve the vector is valid and `insert` at
index 0 succeeds. -/
theorem zero_count_vector_invalid_until_reserve
    (objsz atleast idx : Nat) (p : List Nat) :
    (vector_new 0 objsz).data = none ∧
    __vector_is_valid (vector_new 0 objsz) = false ∧
    (vector_get (vector_new 0 objsz) idx).1 = VEC_EINVAL ∧
    (vector_insert (vector_new 0 objsz) idx p true).1 = VEC_EINVAL ∧
    (vector_push (vector_new 0 objsz) p true).1 = VEC_EINVAL ∧
    (vector_fit (vector_new 0 objsz) false true).1 = VEC_EINVAL ∧
    vector_get_iterator (vector_new 0 objsz) idx idx true = none ∧
    (0 < atleast →
      (vector_reserve (vector_new 0 objsz) atleast true).1 ≠ VEC_EINVAL ∧
      (vector_reserve (vector_new 0 objsz) atleast true).1 ≠ VEC_EIMMUT) ∧
    ((vector_reserve (vector_new 0 objsz) atleast true).1 = VEC_SUCCESS →
      __vector_is_valid
        (vector_reserve (vector_new 0 objsz) atleast true).2 = true ∧
      (vector_insert (vector_reserve (vector_new 0 objsz) atleast true).2
        0 p true).1 = VEC_SUCCESS) := by
  have hnv : __vector_is_valid (vector_new 0 objsz) = false := by
    simp [vector_new, __vector_is_valid]
  refine ⟨by simp [vector_new], hnv, ?_, ?_, ?_, ?_, ?_, ?_, ?_⟩
  · simp [vector_get, hnv]
  · simp [vector_insert, hnv]
  · simp [vector_push, vector_insert, hnv]
  · simp [vector_fit, hnv]
  · simp [vector_get_iterator, hnv]
  · intro ha
    have hres : vector_reserve (vector_new 0 objsz) atleast true =
        __vector_realloc (vector_new 0 objsz) atleast true := by
      simp [vector_reserve, ha, vector_new]
    rw [hres]
    have hx1 : VEC_EMAXED ≠ VEC_EINVAL := by decide
    have hx2 : VEC_EMAXED ≠ VEC_EIMMUT := by decide
    have hx3 : VEC_ENOMEM ≠ VEC_EINVAL := by decide
    have hx4 : VEC_ENOMEM ≠ VEC_EIMMUT := by decide
    have hx5 : VEC_SUCCESS ≠ VEC_EINVAL := by decide
    have hx6 : VEC_SUCCESS ≠ VEC_EIMMUT := by decide
    rcases realloc_cases (vector_new 0 objsz) atleast true with h1 | h1 | h1
    · rw [h1]; exact ⟨hx1, hx2⟩
    · rw [h1]; exact ⟨hx3, hx4⟩
    · rw [h1]; exact ⟨hx5, hx6⟩
  · intro h
    by_cases ha : 0 < atleast
    · have hres : vector_reserve (vector_new 0 objsz) atleast true =
          __vector_realloc (vector_new 0 objsz) atleast true := by
        simp [vector_reserve, ha, vector_new]
      rw [hres] at h ⊢
      obtain ⟨hcap, hvalid⟩ :=
        realloc_success_grows (vector_new 0 objsz) atleast true h
      refine ⟨hvalid, ?_⟩
      apply insert_no_growth_succeeds _ _ _ _ hvalid
      simp [__vector_needs_realloc_for]
    · exfalso
      have ha0 : atleast = 0 := by omega
      rw [ha0] at h
      simp [vector_reserve, VEC_EINVAL, VEC_SUCCESS] at h

/-- Witness for C10: with `element_size = 1`, `reserve(v, 1)` on the
zero-count vector is not rejected, succeeds, and makes the vector valid
and insertable. -/
theorem zero_count_vector_invalid_until_reserve_witness :
    (vector_reserve (vector_new 0 1) 1 true).1 ≠ VEC_EINVAL ∧
    __vector_is_valid (vector_reserve (vector_new 0 1) 1 true).2 = true ∧
    (vector_insert (vector_reserve (vector_new 0 1) 1 true).2
      0 [5] true).1 = VEC_SUCCESS := by
  obtain ⟨-, -, -, -, -, -, -, h8, h9⟩ :=
    zero_count_vector_invalid_until_reserve 1 1 0 [5]
  exact ⟨(h8 (by decide)).1, (h9 (by decide)).1, (h9 (by decide)).2⟩

/-- C8 counterexample: on a vector of capacity exactly 5 (allocation
succeeding), requesting the window `[2, 5)` yields NULL, because
`vector_get_iterator` validates `end` with `__vector_idx_is_valid`
(`end < capacity`), so `end = 5` needs capacity at least 6 — the claim's
`capacity ≥ 5` is not sufficient. -/
theorem iterator_end_five_rejected_at_capacity_five :
    vector_get_iterator (vector_new 5 1) 2 5 true = none := by
  decide

/-- C8 (amended to `capacity ≥ 6`): on a valid vector with capacity at
least 6, creating the iterator `[2, 5)` succeeds (absent allocation
failure); `has_next` is true for exactly three successive `get_next`
calls, which return the elements at indices 2, 3, 4 in that order, after
which `has_next` is false and a fourth `get_next` fails `VEC_EITEHX`. -/
theorem iterator_window_two_to_five (v : vector)
    (hv : __vector_is_valid v = true) (hc : 6 ≤ v.capacity) :
    vector_get_iterator v 2 5 true = some ⟨v, 2, 5, 2⟩ ∧
    vector_has_next ⟨v, 2, 5, 2⟩ = true ∧
    (vector_get v 2).1 = VEC_SUCCESS ∧
    vector_get_next ⟨v, 2, 5, 2⟩ =
      (VEC_SUCCESS, ⟨v, 2, 5, 3⟩, (vector_get v 2).2) ∧
    vector_has_next ⟨v, 2, 5, 3⟩ = true ∧
    (vector_get v 3).1 = VEC_SUCCESS ∧
    vector_get_next ⟨v, 2, 5, 3⟩ =
      (VEC_SUCCESS, ⟨v, 2, 5, 4⟩, (vector_get v 3).2) ∧
    vector_has_next ⟨v, 2, 5, 4⟩ = true ∧
    (vector_get v 4).1 = VEC_SUCCESS ∧
    vector_get_next ⟨v, 2, 5, 4⟩ =
      (VEC_SUCCESS, ⟨v, 2, 5, 5⟩, (vector_get v 4).2) ∧
    vector_has_next ⟨v, 2, 5, 5⟩ = false ∧
    vector_get_next ⟨v, 2, 5, 5⟩ = (VEC_EITEHX, ⟨v, 2, 5, 5⟩, none) := by
  have h2 : __vector_idx_is_valid v 2 = true := by
    simp only [__vector_idx_is_valid, decide_eq_true_eq]; omega
  have h3 : __vector_idx_is_valid v 3 = true := by
    simp only [__vector_idx_is_valid, decide_eq_true_eq]; omega
  have h4 : __vector_idx_is_valid v 4 = true := by
    simp only [__vector_idx_is_valid, decide_eq_true_eq]; omega
  have h5 : __vector_idx_is_valid v 5 = true := by
    simp only [__vector_idx_is_valid, decide_eq_true_eq]; omega
  have hg2 : (vector_get v 2).1 = VEC_SUCCESS := by
    simp [vector_get, hv, h2]
  have hg3 : (vector_get v 3).1 = VEC_SUCCESS := by
    simp [vector_get, hv, h3]
  have hg4 : (vector_get v 4).1 = VEC_SUCCESS := by
    simp [vector_get, hv, h4]
  have e2 : ((2 : Nat) + 1) % W = 3 := by decide
  have e3 : ((3 : Nat) + 1) % W = 4 := by decide
  have e4 : ((4 : Nat) + 1) % W = 5 := by decide
  have d3 : ((3 : Nat) + (W - 1)) % W = 2 := by decide
  have d4 : ((4 : Nat) + (W - 1)) % W = 3 := by decide
  have d5 : ((5 : Nat) + (W - 1)) % W = 4 := by decide
  refine ⟨?_, by simp [vector_has_next], hg2, ?_, by simp [vector_has_next],
    hg3, ?_, by simp [vector_has_next], hg4, ?_, by simp [vector_has_next],
    by simp [vector_get_next, vector_has_next]⟩
  · simp [vector_get_iterator, hv, h2, h5]
  · simp [vector_get_next, vector_has_next, e2, d3, hg2]
  · simp [vector_get_next, vector_has_next, e3, d4, hg3]
  · simp [vector_get_next, vector_has_next, e4, d5, hg4]

/-- Witness for C8: the six-slot vector accepts the `[2, 5)` window and
the iterator exhausts after index 4. -/
theorem iterator_window_two_to_five_witness :
    vector_get_iterator (vector_new 6 1) 2 5 true =
      some ⟨vector_new 6 1, 2, 5, 2⟩ ∧
    vector_has_next ⟨vector_new 6 1, 2, 5, 5⟩ = false ∧
    (vector_get_next ⟨vector_new 6 1, 2, 5, 5⟩).1 = VEC_EITEHX := by
  obtain ⟨h1, -, -, -, -, -, -, -, -, -, h11, h12⟩ :=
    iterator_window_two_to_five (vector_new 6 1) (by decide) (by decide)
  exact ⟨h1, h11, by rw [h12]⟩
